import Mathlib

/-!
Shallow embedding of the country-bot geopolitical simulation services
(`src/services/military_service.py`, `src/services/development_service.py`,
`src/services/country_service.py`, data model from `src/database/models.py`,
constants from `src/config.py`).

Conventions of the embedding:
  * machine integers of the store are `Int`; timestamps are epoch seconds (`Int`);
  * Python float quantities (random draws, bonus multipliers) are `ℚ`, and
    Python's `int()` truncation-toward-zero is `pyInt`;
  * the committed database state is a `DB` value; a service method is a
    function `DB → Except Err α × DB` whose returned `DB` is the state after
    the method returns or raises: an exception raised before `self.db.commit()`
    leaves the committed state unchanged;
  * `TransactionLog` is referenced in `build_army`, `update_resources` and
    `start_development` without being imported in those modules, so reaching
    that statement raises `NameError` before the commit; the embedding returns
    `Err.nameError "TransactionLog"` with the state unchanged at exactly that
    program point.
-/

/-- Python `int()` on a rational: truncation toward zero. -/
def pyInt (q : ℚ) : ℤ :=
  if 0 ≤ q then q.floor else q.ceil

inductive UnitType
  | infantry
  | tank
  | ship
  | aircraft
deriving DecidableEq, Repr

inductive DevelopmentCategory
  | infrastructure
  | research
  | trade
deriving DecidableEq, Repr

inductive DevelopmentStatus
  | in_progress
  | completed
  | cancelled
deriving DecidableEq, Repr

inductive BattleResult
  | victory
  | defeat
  | draw
deriving DecidableEq, Repr

/-- `Country` row (models.py): the fields the services read and write. -/
structure Country where
  id : Int
  name : String
  user_id : Int
  government_type : String
  ideology : String
  population : Int
  gdp : Int
  military_power : Int
  resources : Int
deriving DecidableEq, Repr

/-- `MilitaryUnit` row (models.py). -/
structure MilitaryUnit where
  country_id : Int
  unit_type : UnitType
  quantity : Int
  technology_level : Int
deriving DecidableEq, Repr

/-- `Development` row (models.py); bonuses are Float columns, embedded as `ℚ`. -/
structure Development where
  id : Int
  country_id : Int
  category : DevelopmentCategory
  name : String
  resource_cost : Int
  start_time : Int
  end_time : Int
  status : DevelopmentStatus
  infrastructure_bonus : ℚ
  research_bonus : ℚ
  trade_bonus : ℚ
deriving DecidableEq, Repr

/-- `Battle` row (models.py). -/
structure Battle where
  attacker_id : Int
  defender_id : Int
  attacker_strength : Int
  defender_strength : Int
  result : BattleResult
  casualties_attacker : Int
  casualties_defender : Int
  territory_gained : Int
  resources_captured : Int
deriving DecidableEq, Repr

/-- `TransactionLog` row (models.py).  Defined in the model layer but never
importable from the service modules that construct it. -/
structure TransactionLog where
  country_id : Int
  transaction_type : String
  amount : Int
  description : String
deriving DecidableEq, Repr

/-- The committed relational state. -/
structure DB where
  countries : List Country
  units : List MilitaryUnit
  developments : List Development
  battles : List Battle
  transactions : List TransactionLog
deriving DecidableEq, Repr

/-- Errors of `utils/error_handler.py`, plus Python's `NameError` for the
unresolved `TransactionLog` reference. -/
inductive Err
  | validationError (msg : String)
  | resourceError (msg : String)
  | permissionError (msg : String)
  | nameError (missing : String)
deriving DecidableEq, Repr

/-- `config.INITIAL_RESOURCES` (config.py). -/
def INITIAL_RESOURCES : Int := 1000

/-- `MilitaryService.unit_costs` (military_service.py). -/
def unit_costs : UnitType → Int
  | .infantry => 10
  | .tank => 50
  | .ship => 100
  | .aircraft => 80

/-- `MilitaryService.unit_strength` (military_service.py). -/
def unit_strength : UnitType → Int
  | .infantry => 1
  | .tank => 5
  | .ship => 10
  | .aircraft => 8

/-- `UnitType(unit_type_str)` enum lookup (models.py). -/
def unitTypeOfString : String → Option UnitType
  | "infantry" => some .infantry
  | "tank" => some .tank
  | "ship" => some .ship
  | "aircraft" => some .aircraft
  | _ => none

/-- `DevelopmentCategory(category_str)` enum lookup (models.py). -/
def categoryOfString : String → Option DevelopmentCategory
  | "infrastructure" => some .infrastructure
  | "research" => some .research
  | "trade" => some .trade
  | _ => none

/-- `db.query(Country).filter(Country.id == country_id).first()`. -/
def getCountry (db : DB) (cid : Int) : Option Country :=
  db.countries.find? (fun c => c.id == cid)

/-- Row-level UPDATE of one country by primary key. -/
def updateCountryList (cs : List Country) (cid : Int) (f : Country → Country) :
    List Country :=
  cs.map (fun c => if c.id == cid then f c else c)

/-- `MilitaryService.get_military_units`. -/
def get_military_units (db : DB) (cid : Int) : List MilitaryUnit :=
  db.units.filter (fun u => u.country_id == cid)

/-- `MilitaryService.calculate_military_strength`:
`quantity * unit_strength[unit_type] * technology_level` summed. -/
def calculate_military_strength (db : DB) (cid : Int) : Int :=
  ((get_military_units db cid).map
    (fun u => u.quantity * unit_strength u.unit_type * u.technology_level)).sum

/-- The slice of `CountryService.get_country_status`'s returned dict that the
claims consult. -/
structure CountryStatus where
  id : Int
  name : String
  population : Int
  gdp : Int
  military_power : Int
  resources : Int
  unitInfo : List (UnitType × Int × Int)
  total_strength : Int
deriving DecidableEq, Repr

/-- `CountryService.get_country_status` (country_service.py).  Note the code
computes `total_strength = sum(unit.quantity * unit.technology_level ...)`
with no per-category strength multiplier. -/
def get_country_status (db : DB) (cid : Int) : Except Err CountryStatus :=
  match getCountry db cid with
  | none => .error (.validationError "Country not found")
  | some c =>
    let mus := get_military_units db cid
    .ok { id := c.id
          name := c.name
          population := c.population
          gdp := c.gdp
          military_power := c.military_power
          resources := c.resources
          unitInfo := mus.map (fun u => (u.unit_type, u.quantity, u.technology_level))
          total_strength := (mus.map (fun u => u.quantity * u.technology_level)).sum }

/-- `MilitaryService.build_army`.  Every successful-validation path reaches
`TransactionLog(...)` which is an unresolved name in military_service.py:
`NameError` is raised before `self.db.commit()`, so the in-session updates to
`unit.quantity` and `country.resources` are never committed. -/
def build_army (db : DB) (cid : Int) (unit_type_str : String) (quantity : Int) :
    Except Err (MilitaryUnit × Int) × DB :=
  match unitTypeOfString unit_type_str with
  | none => (.error (.validationError "Invalid unit type"), db)
  | some ut =>
    if quantity ≤ 0 then
      (.error (.validationError "Quantity must be greater than 0"), db)
    else
      let cost := unit_costs ut * quantity
      match getCountry db cid with
      | none => (.error (.validationError "Country not found"), db)
      | some c =>
        if c.resources < cost then
          (.error (.resourceError "Not enough resources"), db)
        else
          (.error (.nameError "TransactionLog"), db)

/-- `CountryService.update_resources`.  The resource check precedes the
unresolved `TransactionLog` reference; the commit is never reached. -/
def update_resources (db : DB) (cid : Int) (amount : Int) :
    Except Err (Int × Int) × DB :=
  match getCountry db cid with
  | none => (.error (.validationError "Country not found"), db)
  | some c =>
    if amount < 0 ∧ c.resources + amount < 0 then
      (.error (.resourceError "Not enough resources"), db)
    else
      (.error (.nameError "TransactionLog"), db)

/-- One entry of `DevelopmentService.development_options`. -/
structure DevOption where
  name : String
  cost : Int
  time_days : Int
  infrastructure_bonus : ℚ
  research_bonus : ℚ
  trade_bonus : ℚ
deriving DecidableEq, Repr

/-- `DevelopmentService.development_options` (development_service.py). -/
def development_options : DevelopmentCategory → List DevOption
  | .infrastructure =>
    [ { name := "Road Network", cost := 200, time_days := 1,
        infrastructure_bonus := 5/100, research_bonus := 0, trade_bonus := 2/100 },
      { name := "Power Grid", cost := 300, time_days := 2,
        infrastructure_bonus := 8/100, research_bonus := 1/100, trade_bonus := 1/100 },
      { name := "Urban Development", cost := 500, time_days := 3,
        infrastructure_bonus := 10/100, research_bonus := 2/100, trade_bonus := 3/100 } ]
  | .research =>
    [ { name := "Basic Research", cost := 250, time_days := 2,
        infrastructure_bonus := 0, research_bonus := 5/100, trade_bonus := 0 },
      { name := "Military Technology", cost := 400, time_days := 3,
        infrastructure_bonus := 0, research_bonus := 8/100, trade_bonus := 1/100 },
      { name := "Advanced Research Center", cost := 600, time_days := 5,
        infrastructure_bonus := 2/100, research_bonus := 12/100, trade_bonus := 2/100 } ]
  | .trade =>
    [ { name := "Trade Agreements", cost := 150, time_days := 1,
        infrastructure_bonus := 0, research_bonus := 0, trade_bonus := 5/100 },
      { name := "Port Expansion", cost := 350, time_days := 2,
        infrastructure_bonus := 3/100, research_bonus := 0, trade_bonus := 8/100 },
      { name := "Global Trade Network", cost := 550, time_days := 4,
        infrastructure_bonus := 2/100, research_bonus := 1/100, trade_bonus := 15/100 } ]

/-- `DevelopmentService.start_development`.  As in `build_army`, every path
that passes validation raises `NameError` at the `TransactionLog(...)`
reference before the commit. -/
def start_development (db : DB) (cid : Int) (category_str option_name : String) :
    Except Err Development × DB :=
  match categoryOfString category_str with
  | none => (.error (.validationError "Invalid development category"), db)
  | some cat =>
    match (development_options cat).find? (fun o => o.name == option_name) with
    | none => (.error (.validationError "Invalid development option"), db)
    | some o =>
      match getCountry db cid with
      | none => (.error (.validationError "Country not found"), db)
      | some c =>
        if c.resources < o.cost then
          (.error (.resourceError "Not enough resources"), db)
        else
          (.error (.nameError "TransactionLog"), db)

/-- The selection predicate of `check_completed_developments`:
`status == IN_PROGRESS AND end_time <= now`. -/
def devMatured (now : Int) (d : Development) : Bool :=
  d.status == .in_progress && d.end_time ≤ now

/-- `development.status = DevelopmentStatus.COMPLETED`. -/
def setCompleted (d : Development) : Development :=
  { d with status := .completed }

/-- The per-record bonus application of `check_completed_developments`:
`gdp = int(gdp * (1 + infrastructure_bonus))`,
`military_power = int(military_power * (1 + research_bonus))`,
`resources += int(resources * trade_bonus)`. -/
def applyBonuses (c : Country) (d : Development) : Country :=
  { c with
    gdp := pyInt ((c.gdp : ℚ) * (1 + d.infrastructure_bonus))
    military_power := pyInt ((c.military_power : ℚ) * (1 + d.research_bonus))
    resources := c.resources + pyInt ((c.resources : ℚ) * d.trade_bonus) }

/-- `DevelopmentService.check_completed_developments` (the sweep): select every
IN_PROGRESS record with `end_time <= now`, set each to COMPLETED, and apply its
bonuses to the owning country (`if country:` skips a missing owner); the
returned list holds the selected records, which are COMPLETED on return. -/
def check_completed_developments (db : DB) (now : Int) :
    Except Err (List Development) × DB :=
  let completed := db.developments.filter (devMatured now)
  let newDevs := db.developments.map
    (fun d => if devMatured now d then setCompleted d else d)
  let newCountries := completed.foldl
    (fun cs d => updateCountryList cs d.country_id (fun c => applyBonuses c d))
    db.countries
  (.ok (completed.map setCompleted),
   { db with developments := newDevs, countries := newCountries })

/-- The `(progress, time_left)` computation of
`DevelopmentService.get_development_progress` for one record at time `now`. -/
def progressOf (d : Development) (now : Int) : Int × Int :=
  match d.status with
  | .completed => (100, 0)
  | .cancelled => (0, 0)
  | .in_progress =>
    let total_time : ℚ := ((d.end_time - d.start_time : Int) : ℚ)
    let elapsed_time : ℚ := ((now - d.start_time : Int) : ℚ)
    (min 100 (pyInt (elapsed_time / total_time * 100)),
     max 0 (d.end_time - now))

/-- `DevelopmentService.get_development_progress` (lookup plus `progressOf`). -/
def get_development_progress (db : DB) (devId : Int) (now : Int) :
    Except Err (Int × Int) :=
  match db.developments.find? (fun d => d.id == devId) with
  | none => .error (.validationError "Development not found")
  | some d => .ok (progressOf d now)

/-- One unit row's contribution to the casualty-allocation total:
`unit.quantity * self.unit_strength[unit.unit_type]` (no technology level,
matching `_apply_casualties`). -/
def casualtyContribution (u : MilitaryUnit) : Int :=
  u.quantity * unit_strength u.unit_type

/-- Units lost by one category in `_apply_casualties`:
`min(int(total_casualties * (contribution / total_strength)), quantity)`. -/
def casualtyLoss (total_strength tc : Int) (u : MilitaryUnit) : Int :=
  min (pyInt ((tc : ℚ) * ((casualtyContribution u : ℚ) / (total_strength : ℚ))))
    u.quantity

/-- The per-country core of `MilitaryService._apply_casualties` on the
country's unit rows. -/
def applyCasualtiesUnits (units : List MilitaryUnit) (tc : Int) :
    List MilitaryUnit :=
  let total := (units.map casualtyContribution).sum
  if units.isEmpty || total == 0 then units
  else units.map (fun u => { u with quantity := u.quantity - casualtyLoss total tc u })

/-- `MilitaryService._apply_casualties`: mutate the country's unit rows in
place (rows of other countries untouched) and commit. -/
def apply_casualties (db : DB) (cid : Int) (tc : Int) : DB :=
  let mine := get_military_units db cid
  let total := (mine.map casualtyContribution).sum
  if mine.isEmpty || total == 0 then db
  else
    { db with units := db.units.map (fun u =>
        if u.country_id == cid then
          { u with quantity := u.quantity - casualtyLoss total tc u }
        else u) }

/-- The random draws of `_calculate_battle_result` and of the spoils
computation, passed explicitly (spec §9: dependency injection of randomness). -/
structure BattleRandom where
  random_factor : ℚ
  base_casualty_rate : ℚ
  territory_roll : ℚ
  resources_roll : ℚ
deriving DecidableEq, Repr

/-- `MilitaryService._calculate_battle_result`: returns
`(result, casualties_attacker, casualties_defender, territory_gained,
resources_captured)`. -/
def calculateBattleResult (attacker_strength defender_strength : Int)
    (defender_resources : Int) (r : BattleRandom) :
    BattleResult × Int × Int × Int × Int :=
  let strength_ratio : ℚ := (attacker_strength : ℚ) / ((max defender_strength 1 : Int) : ℚ)
  let adjusted_ratio := strength_ratio * r.random_factor
  let result :=
    if adjusted_ratio > 12/10 then BattleResult.victory
    else if adjusted_ratio < 8/10 then BattleResult.defeat
    else BattleResult.draw
  let attacker_casualty_rate :=
    if result = BattleResult.victory then r.base_casualty_rate * (7/10)
    else if result = BattleResult.defeat then r.base_casualty_rate * (13/10)
    else r.base_casualty_rate
  let defender_casualty_rate :=
    if result = BattleResult.victory then r.base_casualty_rate * (13/10)
    else if result = BattleResult.defeat then r.base_casualty_rate * (7/10)
    else r.base_casualty_rate
  let casualties_attacker := pyInt ((attacker_strength : ℚ) * attacker_casualty_rate)
  let casualties_defender := pyInt ((defender_strength : ℚ) * defender_casualty_rate)
  let spoils :=
    if result = BattleResult.victory then
      (pyInt (r.territory_roll * 100), pyInt (r.resources_roll * (defender_resources : ℚ)))
    else ((0 : Int), (0 : Int))
  (result, casualties_attacker, casualties_defender, spoils.1, spoils.2)

/-- The dict returned by `MilitaryService.attack`. -/
structure AttackResult where
  result : BattleResult
  attacker_strength : Int
  defender_strength : Int
  casualties_attacker : Int
  casualties_defender : Int
  territory_gained : Int
  resources_captured : Int
deriving DecidableEq, Repr

/-- `MilitaryService.attack`: validations, battle resolution, casualty
application to both sides, VICTORY-only resource transfer, Battle record. -/
def attack (db : DB) (attacker_id defender_id : Int) (r : BattleRandom) :
    Except Err AttackResult × DB :=
  match getCountry db attacker_id with
  | none => (.error (.validationError "Attacker country not found"), db)
  | some _ =>
    match getCountry db defender_id with
    | none => (.error (.validationError "Defender country not found"), db)
    | some defender =>
      if attacker_id == defender_id then
        (.error (.validationError "Cannot attack own country"), db)
      else
        let attacker_strength := calculate_military_strength db attacker_id
        let defender_strength := calculate_military_strength db defender_id
        if attacker_strength ≤ 0 then
          (.error (.resourceError "Attacker has no military units"), db)
        else
          let br := calculateBattleResult attacker_strength defender_strength
            defender.resources r
          let result := br.1
          let casualties_attacker := br.2.1
          let casualties_defender := br.2.2.1
          let territory_gained := br.2.2.2.1
          let resources_captured := br.2.2.2.2
          let db1 := apply_casualties db attacker_id casualties_attacker
          let db2 := apply_casualties db1 defender_id casualties_defender
          let transferred :=
            updateCountryList
              (updateCountryList db2.countries attacker_id
                (fun c => { c with resources := c.resources + resources_captured }))
              defender_id
              (fun c => { c with resources := c.resources - resources_captured })
          let db3 :=
            if result = BattleResult.victory then { db2 with countries := transferred }
            else db2
          let battle : Battle :=
            { attacker_id := attacker_id
              defender_id := defender_id
              attacker_strength := attacker_strength
              defender_strength := defender_strength
              result := result
              casualties_attacker := casualties_attacker
              casualties_defender := casualties_defender
              territory_gained := territory_gained
              resources_captured := resources_captured }
          (.ok { result := result
                 attacker_strength := attacker_strength
                 defender_strength := defender_strength
                 casualties_attacker := casualties_attacker
                 casualties_defender := casualties_defender
                 territory_gained := territory_gained
                 resources_captured := resources_captured },
           { db3 with battles := db3.battles ++ [battle] })

/-- `GovernmentType` member values (models.py). -/
def GOVERNMENT_TYPES : List String :=
  ["democracy", "monarchy", "dictatorship", "republic", "theocracy",
   "communist", "socialist", "oligarchy"]

/-- `Ideology` member values (models.py). -/
def IDEOLOGIES : List String :=
  ["capitalist", "communist", "socialist", "fascist", "liberal",
   "conservative", "nationalist", "religious", "progressive"]

/-- Autoincrement primary key of the store. -/
def nextCountryId (db : DB) : Int :=
  (db.countries.map Country.id).foldl max 0 + 1

/-- `CountryService._create_initial_military_units`. -/
def initialMilitaryUnits (cid : Int) : List MilitaryUnit :=
  [ { country_id := cid, unit_type := .infantry, quantity := 100, technology_level := 1 },
    { country_id := cid, unit_type := .tank, quantity := 10, technology_level := 1 },
    { country_id := cid, unit_type := .ship, quantity := 5, technology_level := 1 },
    { country_id := cid, unit_type := .aircraft, quantity := 5, technology_level := 1 } ]

/-- `CountryService.create_country` followed by its call to
`_create_initial_military_units`; both commit, and neither touches
`TransactionLog`. -/
def create_country (db : DB) (user_id : Int) (name gov ideology : String) :
    Except Err Country × DB :=
  if db.countries.any (fun c => c.name == name) then
    (.error (.validationError "Country name already exists"), db)
  else if db.countries.any (fun c => c.user_id == user_id) then
    (.error (.resourceError "User already has a country"), db)
  else if ¬ (GOVERNMENT_TYPES.contains gov ∧ IDEOLOGIES.contains ideology) then
    (.error (.validationError "Invalid government type or ideology"), db)
  else
    let cid := nextCountryId db
    let country : Country :=
      { id := cid, name := name, user_id := user_id, government_type := gov,
        ideology := ideology, population := 1000000, gdp := 1000000000,
        military_power := 10, resources := INITIAL_RESOURCES }
    (.ok country,
     { db with countries := db.countries ++ [country]
               units := db.units ++ initialMilitaryUnits cid })

/-! ### Helper lemmas -/

theorem pyInt_eq_floor {q : ℚ} (h : 0 ≤ q) : pyInt q = Int.floor q := by
  rw [pyInt, if_pos h]; rfl

theorem pyInt_nonneg {q : ℚ} (h : 0 ≤ q) : 0 ≤ pyInt q := by
  rw [pyInt_eq_floor h]
  exact Int.le_floor.mpr (by exact_mod_cast h)

theorem pyInt_le {q : ℚ} (h : 0 ≤ q) : (pyInt q : ℚ) ≤ q := by
  rw [pyInt_eq_floor h]
  exact Int.floor_le q


/-- The adjusted strength ratio of `_calculate_battle_result`. -/
def adjustedRatio (atkS defS : Int) (r : BattleRandom) : ℚ :=
  (atkS : ℚ) / ((max defS 1 : Int) : ℚ) * r.random_factor

theorem cbr_result (atkS defS dres : Int) (r : BattleRandom) :
    (calculateBattleResult atkS defS dres r).1 =
      (if adjustedRatio atkS defS r > 12/10 then BattleResult.victory
       else if adjustedRatio atkS defS r < 8/10 then BattleResult.defeat
       else BattleResult.draw) := rfl

theorem cbr_ca (atkS defS dres : Int) (r : BattleRandom) :
    (calculateBattleResult atkS defS dres r).2.1 =
      pyInt ((atkS : ℚ) *
        (if (calculateBattleResult atkS defS dres r).1 = .victory then
          r.base_casualty_rate * (7/10)
         else if (calculateBattleResult atkS defS dres r).1 = .defeat then
          r.base_casualty_rate * (13/10)
         else r.base_casualty_rate)) := rfl

theorem cbr_cd (atkS defS dres : Int) (r : BattleRandom) :
    (calculateBattleResult atkS defS dres r).2.2.1 =
      pyInt ((defS : ℚ) *
        (if (calculateBattleResult atkS defS dres r).1 = .victory then
          r.base_casualty_rate * (13/10)
         else if (calculateBattleResult atkS defS dres r).1 = .defeat then
          r.base_casualty_rate * (7/10)
         else r.base_casualty_rate)) := rfl

theorem cbr_tg (atkS defS dres : Int) (r : BattleRandom) :
    (calculateBattleResult atkS defS dres r).2.2.2.1 =
      (if (calculateBattleResult atkS defS dres r).1 = .victory then
        pyInt (r.territory_roll * 100) else 0) := by
  unfold calculateBattleResult
  dsimp only
  split_ifs <;> rfl

theorem cbr_rc (atkS defS dres : Int) (r : BattleRandom) :
    (calculateBattleResult atkS defS dres r).2.2.2.2 =
      (if (calculateBattleResult atkS defS dres r).1 = .victory then
        pyInt (r.resources_roll * (dres : ℚ)) else 0) := by
  unfold calculateBattleResult
  dsimp only
  split_ifs <;> rfl

/-- C2: with adjusted ratio = (attacker_strength / max(defender_strength, 1)) *
multiplier, the outcome is VICTORY iff adjusted > 1.2, DEFEAT iff
adjusted < 0.8, DRAW otherwise; the winner's casualty rate is base * 0.7, the
loser's base * 1.3, both equal base on a draw, and each side loses
floor(strength * rate).  For strengths 1000 vs 500 with multiplier pinned at 1
and base rate pinned at 0.2 this yields VICTORY with attacker casualties 140
and defender casualties 130. -/
theorem battle_result_spec :
    (∀ (atkS defS dres : Int) (r : BattleRandom),
      0 ≤ atkS → 0 ≤ defS → 0 ≤ r.base_casualty_rate →
      ((calculateBattleResult atkS defS dres r).1 = .victory ↔
        adjustedRatio atkS defS r > 12/10)
      ∧ ((calculateBattleResult atkS defS dres r).1 = .defeat ↔
        adjustedRatio atkS defS r < 8/10)
      ∧ ((calculateBattleResult atkS defS dres r).1 = .draw ↔
        (8/10 ≤ adjustedRatio atkS defS r ∧ adjustedRatio atkS defS r ≤ 12/10))
      ∧ (calculateBattleResult atkS defS dres r).2.1 =
          Int.floor ((atkS : ℚ) *
            (if (calculateBattleResult atkS defS dres r).1 = .victory then
              r.base_casualty_rate * (7/10)
             else if (calculateBattleResult atkS defS dres r).1 = .defeat then
              r.base_casualty_rate * (13/10)
             else r.base_casualty_rate))
      ∧ (calculateBattleResult atkS defS dres r).2.2.1 =
          Int.floor ((defS : ℚ) *
            (if (calculateBattleResult atkS defS dres r).1 = .victory then
              r.base_casualty_rate * (13/10)
             else if (calculateBattleResult atkS defS dres r).1 = .defeat then
              r.base_casualty_rate * (7/10)
             else r.base_casualty_rate)))
    ∧ ((calculateBattleResult 1000 500 0
          { random_factor := 1, base_casualty_rate := 2/10,
            territory_roll := 0, resources_roll := 0 }).1 = .victory
      ∧ (calculateBattleResult 1000 500 0
          { random_factor := 1, base_casualty_rate := 2/10,
            territory_roll := 0, resources_roll := 0 }).2.1 = 140
      ∧ (calculateBattleResult 1000 500 0
          { random_factor := 1, base_casualty_rate := 2/10,
            territory_roll := 0, resources_roll := 0 }).2.2.1 = 130) := by
  constructor
  · intro atkS defS dres r ha hd hbr
    have haQ : (0:ℚ) ≤ (atkS : ℚ) := by exact_mod_cast ha
    have hdQ : (0:ℚ) ≤ (defS : ℚ) := by exact_mod_cast hd
    have hrate : ∀ b : BattleResult,
        (0:ℚ) ≤ (if b = BattleResult.victory then r.base_casualty_rate * (7/10)
          else if b = BattleResult.defeat then r.base_casualty_rate * (13/10)
          else r.base_casualty_rate) := by
      intro b
      split_ifs <;> positivity
    have hrate' : ∀ b : BattleResult,
        (0:ℚ) ≤ (if b = BattleResult.victory then r.base_casualty_rate * (13/10)
          else if b = BattleResult.defeat then r.base_casualty_rate * (7/10)
          else r.base_casualty_rate) := by
      intro b
      split_ifs <;> positivity
    refine ⟨?_, ?_, ?_, ?_, ?_⟩
    · rw [cbr_result]
      by_cases h1 : adjustedRatio atkS defS r > 12/10
      · simp [h1]
      · rw [if_neg h1]
        constructor
        · intro h
          split_ifs at h
        · intro h
          exact absurd h h1
    · rw [cbr_result]
      by_cases h1 : adjustedRatio atkS defS r > 12/10
      · rw [if_pos h1]
        constructor
        · intro h; exact absurd h (by decide)
        · intro h; exact absurd (lt_trans h (by norm_num)) (not_lt.mpr (le_of_lt h1))
      · rw [if_neg h1]
        by_cases h2 : adjustedRatio atkS defS r < 8/10
        · simp [h2]
        · rw [if_neg h2]
          constructor
          · intro h; exact absurd h (by decide)
          · intro h; exact absurd h h2
    · rw [cbr_result]
      by_cases h1 : adjustedRatio atkS defS r > 12/10
      · rw [if_pos h1]
        constructor
        · intro h; exact absurd h (by decide)
        · rintro ⟨-, hle⟩; exact absurd h1 (not_lt.mpr hle)
      · rw [if_neg h1]
        by_cases h2 : adjustedRatio atkS defS r < 8/10
        · rw [if_pos h2]
          constructor
          · intro h; exact absurd h (by decide)
          · rintro ⟨hge, -⟩; exact absurd h2 (not_lt.mpr hge)
        · rw [if_neg h2]
          exact ⟨fun _ => ⟨not_lt.mp h2, not_lt.mp h1⟩, fun _ => rfl⟩
    · rw [cbr_ca]
      exact pyInt_eq_floor (mul_nonneg haQ (hrate _))
    · rw [cbr_cd]
      exact pyInt_eq_floor (mul_nonneg hdQ (hrate' _))
  · have hres : (calculateBattleResult 1000 500 0
        { random_factor := 1, base_casualty_rate := 2/10,
          territory_roll := 0, resources_roll := 0 }).1 = .victory := by
      rw [cbr_result, if_pos]
      show ((1000 : Int) : ℚ) / ((max (500 : Int) 1 : Int) : ℚ) * (1:ℚ) > 12/10
      norm_num
    refine ⟨hres, ?_, ?_⟩
    · rw [cbr_ca, hres]
      rw [if_pos rfl]
      rw [show ((1000 : Int) : ℚ) * ((2:ℚ)/10 * (7/10)) = 140 by norm_num,
        pyInt_eq_floor (by norm_num)]
      norm_num
    · rw [cbr_cd, hres]
      rw [if_pos rfl]
      rw [show ((500 : Int) : ℚ) * ((2:ℚ)/10 * (13/10)) = 130 by norm_num,
        pyInt_eq_floor (by norm_num)]
      norm_num

/-- Witness for C2: the general part instantiated at strengths 1000 vs 500
with the pinned draws, discharging the non-negativity hypotheses. -/
theorem battle_result_spec_witness :
    (0:Int) ≤ 1000 ∧ (0:Int) ≤ 500 ∧
    (0:ℚ) ≤ ({ random_factor := 1, base_casualty_rate := 2/10,
               territory_roll := 0, resources_roll := 0 } : BattleRandom).base_casualty_rate ∧
    ((calculateBattleResult 1000 500 0
        { random_factor := 1, base_casualty_rate := 2/10,
          territory_roll := 0, resources_roll := 0 }).1 = .victory ↔
      adjustedRatio 1000 500
        { random_factor := 1, base_casualty_rate := 2/10,
          territory_roll := 0, resources_roll := 0 } > 12/10) :=
  ⟨by norm_num, by norm_num, by norm_num,
   (battle_result_spec.1 1000 500 0
     { random_factor := 1, base_casualty_rate := 2/10,
       territory_roll := 0, resources_roll := 0 }
     (by norm_num) (by norm_num) (by norm_num)).1⟩

/-- C7: with both countries present, a self-attack is rejected with a
ValidationError and an attack by an attacker of non-positive aggregate
strength is rejected with a ResourceError; in both cases the returned state
is the unchanged input state, so no Battle record is created and no nation's
units or resources are modified. -/
theorem attack_rejects (db : DB) (aid did : Int) (r : BattleRandom)
    (a d : Country)
    (ha : getCountry db aid = some a) (hd : getCountry db did = some d) :
    (aid = did →
      attack db aid did r = (.error (.validationError "Cannot attack own country"), db))
    ∧ (aid ≠ did → calculate_military_strength db aid ≤ 0 →
      attack db aid did r =
        (.error (.resourceError "Attacker has no military units"), db)) := by
  constructor
  · intro heq
    unfold attack
    rw [ha, hd]
    simp [heq]
  · intro hne hs
    unfold attack
    rw [ha, hd]
    simp only [beq_iff_eq, if_neg hne]
    rw [if_pos hs]

theorem apply_casualties_countries (db : DB) (cid tc : Int) :
    (apply_casualties db cid tc).countries = db.countries := by
  unfold apply_casualties
  dsimp only
  split <;> rfl

theorem apply_casualties_developments (db : DB) (cid tc : Int) :
    (apply_casualties db cid tc).developments = db.developments := by
  unfold apply_casualties
  dsimp only
  split <;> rfl

/-- Characterization of `attack` when all validations pass. -/
theorem attack_valid_eq (db : DB) (aid did : Int) (r : BattleRandom)
    (a d : Country)
    (ha : getCountry db aid = some a) (hd : getCountry db did = some d)
    (hne : aid ≠ did) (hs : ¬ calculate_military_strength db aid ≤ 0) :
    attack db aid did r =
      (let atkS := calculate_military_strength db aid
       let defS := calculate_military_strength db did
       let br := calculateBattleResult atkS defS d.resources r
       let db2 := apply_casualties (apply_casualties db aid br.2.1) did br.2.2.1
       let transferred :=
         updateCountryList
           (updateCountryList db2.countries aid
             (fun c => { c with resources := c.resources + br.2.2.2.2 }))
           did (fun c => { c with resources := c.resources - br.2.2.2.2 })
       let db3 := if br.1 = BattleResult.victory then { db2 with countries := transferred }
                  else db2
       (.ok { result := br.1
              attacker_strength := atkS
              defender_strength := defS
              casualties_attacker := br.2.1
              casualties_defender := br.2.2.1
              territory_gained := br.2.2.2.1
              resources_captured := br.2.2.2.2 },
        { db3 with battles := db3.battles ++
            [{ attacker_id := aid
               defender_id := did
               attacker_strength := atkS
               defender_strength := defS
               result := br.1
               casualties_attacker := br.2.1
               casualties_defender := br.2.2.1
               territory_gained := br.2.2.2.1
               resources_captured := br.2.2.2.2 }] })) := by
  unfold attack
  rw [ha, hd]
  simp only [beq_iff_eq, if_neg hne, if_neg hs]

/-- Sample nation used by concrete witnesses. -/
def sampleA : Country :=
  { id := 1, name := "Alpha", user_id := 11, government_type := "democracy",
    ideology := "liberal", population := 1000000, gdp := 1000000000,
    military_power := 10, resources := 1000 }

/-- Second sample nation used by concrete witnesses. -/
def sampleB : Country :=
  { id := 2, name := "Beta", user_id := 12, government_type := "monarchy",
    ideology := "conservative", population := 1000000, gdp := 1000000000,
    military_power := 10, resources := 800 }

/-- Two nations, attacker with one infantry detachment. -/
def sampleDB : DB :=
  { countries := [sampleA, sampleB],
    units := [{ country_id := 1, unit_type := .infantry, quantity := 100,
                technology_level := 1 }],
    developments := [], battles := [], transactions := [] }

/-- Two nations, attacker with no units at all. -/
def sampleNoArmyDB : DB :=
  { countries := [sampleA, sampleB], units := [],
    developments := [], battles := [], transactions := [] }

/-- Witness for C7: in a concrete two-nation state where nation 1 has no
units, attacking nation 2 is rejected with a ResourceError and the state is
returned unchanged. -/
theorem attack_rejects_witness :
    getCountry sampleNoArmyDB 1 = some sampleA ∧
    getCountry sampleNoArmyDB 2 = some sampleB ∧
    (1:Int) ≠ 2 ∧
    calculate_military_strength sampleNoArmyDB 1 ≤ 0 ∧
    attack sampleNoArmyDB 1 2
      { random_factor := 1, base_casualty_rate := 2/10,
        territory_roll := 1/10, resources_roll := 15/100 } =
      (.error (.resourceError "Attacker has no military units"), sampleNoArmyDB) :=
  have ha : getCountry sampleNoArmyDB 1 = some sampleA := rfl
  have hb : getCountry sampleNoArmyDB 2 = some sampleB := rfl
  have hs : calculate_military_strength sampleNoArmyDB 1 ≤ 0 := by decide
  ⟨ha, hb, by decide, hs,
   (attack_rejects sampleNoArmyDB 1 2
     { random_factor := 1, base_casualty_rate := 2/10,
       territory_roll := 1/10, resources_roll := 15/100 }
     sampleA sampleB ha hb).2 (by decide) hs⟩

/-- C8: spoils are victory-only.  On DEFEAT or DRAW the resolver returns zero
territory and zero captured resources and a successful `attack` leaves every
nation's row (in particular its resource balance) unchanged; on VICTORY the
resolver returns territory floor(troll * 100) and resources
floor(rroll * defender_resources), and `attack` moves exactly the captured
amount from the defender's balance to the attacker's. -/
theorem spoils_victory_only :
    (∀ (atkS defS dres : Int) (r : BattleRandom),
      (calculateBattleResult atkS defS dres r).1 ≠ .victory →
        (calculateBattleResult atkS defS dres r).2.2.2.1 = 0 ∧
        (calculateBattleResult atkS defS dres r).2.2.2.2 = 0)
    ∧ (∀ (atkS defS dres : Int) (r : BattleRandom),
        0 ≤ r.territory_roll → 0 ≤ r.resources_roll → 0 ≤ dres →
        (calculateBattleResult atkS defS dres r).1 = .victory →
          (calculateBattleResult atkS defS dres r).2.2.2.1 =
            Int.floor (r.territory_roll * 100) ∧
          (calculateBattleResult atkS defS dres r).2.2.2.2 =
            Int.floor (r.resources_roll * (dres : ℚ)))
    ∧ (∀ (db : DB) (aid did : Int) (r : BattleRandom) (a d : Country),
        getCountry db aid = some a → getCountry db did = some d →
        aid ≠ did → ¬ calculate_military_strength db aid ≤ 0 →
        (attack db aid did r).2.countries =
          (if (calculateBattleResult (calculate_military_strength db aid)
                (calculate_military_strength db did) d.resources r).1 =
              BattleResult.victory then
            updateCountryList
              (updateCountryList db.countries aid
                (fun c => { c with resources := c.resources +
                  (calculateBattleResult (calculate_military_strength db aid)
                    (calculate_military_strength db did) d.resources r).2.2.2.2 }))
              did
              (fun c => { c with resources := c.resources -
                (calculateBattleResult (calculate_military_strength db aid)
                  (calculate_military_strength db did) d.resources r).2.2.2.2 })
          else db.countries)) := by
  refine ⟨?_, ?_, ?_⟩
  · intro atkS defS dres r hnv
    rw [cbr_tg, cbr_rc, if_neg hnv, if_neg hnv]
    exact ⟨rfl, rfl⟩
  · intro atkS defS dres r ht hr hd hv
    rw [cbr_tg, cbr_rc, if_pos hv, if_pos hv,
      pyInt_eq_floor (by positivity),
      pyInt_eq_floor (mul_nonneg hr (by exact_mod_cast hd))]
    exact ⟨rfl, rfl⟩
  · intro db aid did r a d ha hd hne hs
    rw [attack_valid_eq db aid did r a d ha hd hne hs]
    dsimp only
    split_ifs with hv
    · rw [apply_casualties_countries, apply_casualties_countries]
    · rw [apply_casualties_countries, apply_casualties_countries]

theorem unit_strength_pos (t : UnitType) : 0 < unit_strength t := by
  cases t <;> decide

theorem casualtyContribution_nonneg {u : MilitaryUnit} (h : 0 ≤ u.quantity) :
    0 ≤ casualtyContribution u :=
  mul_nonneg h (le_of_lt (unit_strength_pos u.unit_type))

theorem contribution_sum_nonneg {l : List MilitaryUnit}
    (h : ∀ u ∈ l, 0 ≤ u.quantity) : 0 ≤ (l.map casualtyContribution).sum := by
  induction l with
  | nil => simp
  | cons u t ih =>
    simp only [List.map_cons, List.sum_cons]
    have h1 := casualtyContribution_nonneg (h u (by simp))
    have h2 := ih (fun v hv => h v (by simp [hv]))
    omega

theorem loss_sum_le_aux (total tc : Int) (htot : 0 < total) (htc : 0 ≤ tc)
    (l : List MilitaryUnit) (hl : ∀ u ∈ l, 0 ≤ u.quantity) :
    (((l.map (fun u => min
        (pyInt ((tc : ℚ) * ((casualtyContribution u : ℚ) / (total : ℚ))))
        u.quantity)).sum : ℚ))
      ≤ (tc : ℚ) * (((l.map casualtyContribution).sum : ℚ) / (total : ℚ)) := by
  induction l with
  | nil => simp
  | cons u t ih =>
    have hu : (0:ℚ) ≤ (tc : ℚ) * ((casualtyContribution u : ℚ) / (total : ℚ)) := by
      have hc : (0:ℚ) ≤ (casualtyContribution u : ℚ) := by
        exact_mod_cast casualtyContribution_nonneg (hl u (by simp))
      have htQ : (0:ℚ) < (total : ℚ) := by exact_mod_cast htot
      positivity
    have hstep : ((min
        (pyInt ((tc : ℚ) * ((casualtyContribution u : ℚ) / (total : ℚ))))
        u.quantity : Int) : ℚ)
        ≤ (tc : ℚ) * ((casualtyContribution u : ℚ) / (total : ℚ)) := by
      calc ((min (pyInt ((tc : ℚ) * ((casualtyContribution u : ℚ) / (total : ℚ))))
            u.quantity : Int) : ℚ)
          ≤ ((pyInt ((tc : ℚ) * ((casualtyContribution u : ℚ) / (total : ℚ))) : Int) : ℚ) := by
            exact_mod_cast min_le_left _ _
        _ ≤ (tc : ℚ) * ((casualtyContribution u : ℚ) / (total : ℚ)) := pyInt_le hu
    have iht := ih (fun v hv => hl v (by simp [hv]))
    simp only [List.map_cons, List.sum_cons] at *
    push_cast at *
    have hsplit : (tc : ℚ) * (((casualtyContribution u : ℚ) +
        ((t.map casualtyContribution).sum : ℚ)) / (total : ℚ))
        = (tc : ℚ) * ((casualtyContribution u : ℚ) / (total : ℚ))
          + (tc : ℚ) * (((t.map casualtyContribution).sum : ℚ) / (total : ℚ)) := by
      ring
    push_cast at hsplit
    linarith

/-- C3: casualty allocation is bounded.  Given unit rows with non-negative
quantities and a non-negative casualty total: if the weighted total strength
is zero nothing is allocated; otherwise each row loses
min(floor(total_casualties * its proportion), quantity) (that is,
`casualtyLoss`); no row's quantity goes below zero; and the total quantity
removed across all categories is at most the requested casualty count. -/
theorem casualty_allocation_bounded (units : List MilitaryUnit) (tc : Int)
    (hq : ∀ u ∈ units, 0 ≤ u.quantity) (htc : 0 ≤ tc) :
    ((units.map casualtyContribution).sum = 0 → applyCasualtiesUnits units tc = units)
    ∧ ((units.map casualtyContribution).sum ≠ 0 →
        applyCasualtiesUnits units tc = units.map (fun u =>
          { u with quantity := u.quantity - casualtyLoss ((units.map casualtyContribution).sum) tc u }))
    ∧ (∀ u' ∈ applyCasualtiesUnits units tc, 0 ≤ u'.quantity)
    ∧ (units.map MilitaryUnit.quantity).sum
        - ((applyCasualtiesUnits units tc).map MilitaryUnit.quantity).sum ≤ tc := by
  have htotnn : 0 ≤ (units.map casualtyContribution).sum := contribution_sum_nonneg hq
  by_cases h0 : (units.map casualtyContribution).sum = 0
  · have heq : applyCasualtiesUnits units tc = units := by
      unfold applyCasualtiesUnits
      rw [if_pos]
      simp [h0]
    refine ⟨fun _ => heq, fun h => absurd h0 h, ?_, ?_⟩
    · rw [heq]; exact hq
    · rw [heq]; omega
  · have htot : 0 < (units.map casualtyContribution).sum :=
      lt_of_le_of_ne htotnn (Ne.symm h0)
    have hne : ¬ units.isEmpty := by
      cases units with
      | nil => simp at h0
      | cons u t => simp
    have heq : applyCasualtiesUnits units tc = units.map (fun u =>
        { u with quantity := u.quantity - casualtyLoss ((units.map casualtyContribution).sum) tc u }) := by
      unfold applyCasualtiesUnits
      rw [if_neg]
      simp only [Bool.or_eq_true, not_or, beq_iff_eq]
      exact ⟨by simpa using hne, h0⟩
    have hloss_le : ∀ u, casualtyLoss ((units.map casualtyContribution).sum) tc u ≤ u.quantity :=
      fun u => min_le_right _ _
    refine ⟨fun h => absurd h h0, fun _ => heq, ?_, ?_⟩
    · rw [heq]
      intro u' hu'
      simp only [List.mem_map] at hu'
      obtain ⟨u, hu, rfl⟩ := hu'
      have := hloss_le u
      simp only
      omega
    · rw [heq]
      have hsum : ∀ (l : List MilitaryUnit),
          ((l.map (fun u =>
            { u with quantity := u.quantity - casualtyLoss ((units.map casualtyContribution).sum) tc u })).map
              MilitaryUnit.quantity).sum
          = (l.map MilitaryUnit.quantity).sum
            - (l.map (fun u => casualtyLoss ((units.map casualtyContribution).sum) tc u)).sum := by
        intro l
        induction l with
        | nil => simp
        | cons u t ih =>
          simp only [List.map_cons, List.sum_cons] at *
          omega
      rw [hsum units]
      have hb := loss_sum_le_aux ((units.map casualtyContribution).sum) tc htot htc units hq
      have hbInt : (units.map (fun u =>
          casualtyLoss ((units.map casualtyContribution).sum) tc u)).sum ≤ tc := by
        have hT : (((units.map casualtyContribution).sum : Int) : ℚ) ≠ 0 := by
          exact_mod_cast h0
        unfold casualtyLoss
        rw [div_self hT, mul_one] at hb
        exact_mod_cast hb
      omega

theorem progressOf_in_progress (d : Development) (now : Int)
    (h : d.status = .in_progress) :
    progressOf d now =
      (min 100 (pyInt (((now - d.start_time : Int) : ℚ) /
          ((d.end_time - d.start_time : Int) : ℚ) * 100)),
       max 0 (d.end_time - now)) := by
  unfold progressOf
  rw [h]

/-- C6: progress reporting.  A COMPLETED record reports (100, 0), a CANCELLED
record reports (0, 0); an IN_PROGRESS record (with the invariant
start_time < end_time, queried at a time at or after its creation) reports
percent = clamp(floor((now - start)/(end - start) * 100), 0, 100) and
remaining = max(0, end_time - now); the percent always lies in [0, 100] and is
monotonically non-decreasing in now while IN_PROGRESS. -/
theorem development_progress_spec (d : Development) (now later : Int)
    (hlt : d.start_time < d.end_time) (hnow : d.start_time ≤ now)
    (hlater : now ≤ later) :
    (d.status = .completed → progressOf d now = (100, 0))
    ∧ (d.status = .cancelled → progressOf d now = (0, 0))
    ∧ (d.status = .in_progress →
        (progressOf d now).1 =
          min 100 (max 0 (Int.floor (((now - d.start_time : Int) : ℚ) /
            ((d.end_time - d.start_time : Int) : ℚ) * 100)))
        ∧ (progressOf d now).2 = max 0 (d.end_time - now))
    ∧ (0 ≤ (progressOf d now).1 ∧ (progressOf d now).1 ≤ 100)
    ∧ (d.status = .in_progress → (progressOf d now).1 ≤ (progressOf d later).1) := by
  have htQ : (0:ℚ) < ((d.end_time - d.start_time : Int) : ℚ) := by
    exact_mod_cast Int.sub_pos.mpr hlt
  have heQ : (0:ℚ) ≤ ((now - d.start_time : Int) : ℚ) := by
    exact_mod_cast Int.sub_nonneg.mpr hnow
  have hxnn : (0:ℚ) ≤ ((now - d.start_time : Int) : ℚ) /
      ((d.end_time - d.start_time : Int) : ℚ) * 100 := by positivity
  have hfloor : pyInt (((now - d.start_time : Int) : ℚ) /
      ((d.end_time - d.start_time : Int) : ℚ) * 100) =
      Int.floor (((now - d.start_time : Int) : ℚ) /
        ((d.end_time - d.start_time : Int) : ℚ) * 100) := pyInt_eq_floor hxnn
  have hflnn : 0 ≤ Int.floor (((now - d.start_time : Int) : ℚ) /
      ((d.end_time - d.start_time : Int) : ℚ) * 100) :=
    Int.le_floor.mpr (by exact_mod_cast hxnn)
  refine ⟨?_, ?_, ?_, ?_, ?_⟩
  · intro h; unfold progressOf; rw [h]
  · intro h; unfold progressOf; rw [h]
  · intro h
    rw [progressOf_in_progress d now h]
    refine ⟨?_, rfl⟩
    rw [hfloor, max_eq_right hflnn]
  · rcases hst : d.status with h | h | h
    · rw [progressOf_in_progress d now hst]
      constructor
      · exact le_min (by norm_num) (by rw [hfloor]; exact hflnn)
      · exact min_le_left _ _
    · unfold progressOf; rw [hst]; norm_num
    · unfold progressOf; rw [hst]; norm_num
  · intro h
    rw [progressOf_in_progress d now h, progressOf_in_progress d later h]
    have heQ' : (0:ℚ) ≤ ((later - d.start_time : Int) : ℚ) := by
      exact_mod_cast Int.sub_nonneg.mpr (le_trans hnow hlater)
    have hxnn' : (0:ℚ) ≤ ((later - d.start_time : Int) : ℚ) /
        ((d.end_time - d.start_time : Int) : ℚ) * 100 := by positivity
    have hmono : ((now - d.start_time : Int) : ℚ) /
        ((d.end_time - d.start_time : Int) : ℚ) * 100
        ≤ ((later - d.start_time : Int) : ℚ) /
          ((d.end_time - d.start_time : Int) : ℚ) * 100 := by
      have hle : ((now - d.start_time : Int) : ℚ) ≤ ((later - d.start_time : Int) : ℚ) := by
        exact_mod_cast Int.sub_le_sub_right hlater d.start_time
      have : ((now - d.start_time : Int) : ℚ) / ((d.end_time - d.start_time : Int) : ℚ)
          ≤ ((later - d.start_time : Int) : ℚ) / ((d.end_time - d.start_time : Int) : ℚ) := by
        gcongr
      nlinarith
    rw [pyInt_eq_floor hxnn, pyInt_eq_floor hxnn']
    exact min_le_min le_rfl (Int.floor_le_floor hmono)

theorem check_ret_eq (db : DB) (now : Int) :
    (check_completed_developments db now).1 =
      .ok ((db.developments.filter (devMatured now)).map setCompleted) := rfl

theorem check_developments_eq (db : DB) (now : Int) :
    (check_completed_developments db now).2.developments =
      db.developments.map (fun d => if devMatured now d then setCompleted d else d) := rfl

theorem check_countries_eq (db : DB) (now : Int) :
    (check_completed_developments db now).2.countries =
      (db.developments.filter (devMatured now)).foldl
        (fun cs d => updateCountryList cs d.country_id (fun c => applyBonuses c d))
        db.countries := rfl

theorem check_units_eq (db : DB) (now : Int) :
    (check_completed_developments db now).2.units = db.units := rfl

theorem devMatured_iff (now : Int) (d : Development) :
    devMatured now d = true ↔ (d.status = .in_progress ∧ d.end_time ≤ now) := by
  simp [devMatured]

theorem devMatured_setCompleted (now : Int) (d : Development) :
    devMatured now (setCompleted d) = false := by
  simp [devMatured, setCompleted]

theorem sweepStep_eq_self {now : Int} {d : Development} (h : devMatured now d = false) :
    (if devMatured now d then setCompleted d else d) = d := by
  rw [h]; simp

/-- Filter predicate of a second sweep on the swept development list. -/
theorem sweep_second_filter (devs : List Development) (now later : Int) :
    ((devs.map (fun d => if devMatured now d then setCompleted d else d)).filter
        (devMatured later)) =
      (devs.filter (fun d => !(devMatured now d) && devMatured later d)).map
        (fun d => if devMatured now d then setCompleted d else d) := by
  rw [List.filter_map]
  congr 1
  apply List.filter_congr
  intro d _
  by_cases h : devMatured now d
  · simp [Function.comp, h, devMatured_setCompleted]
  · simp only [Function.comp, Bool.not_eq_true] at *
    rw [sweepStep_eq_self h, h]
    simp

/-- C1: sweeping is idempotent.  Every record selected by a sweep had status
IN_PROGRESS (a COMPLETED or CANCELLED record is never selected); a second
sweep at any later time selects exactly the records the first did not select
(so no record's bonuses are ever applied twice); and re-sweeping at the same
time selects nothing and leaves the state fixed. -/
theorem sweep_idempotent (db : DB) (now later : Int) :
    (∀ x ∈ db.developments.filter (devMatured now),
        x.status = .in_progress ∧ x.end_time ≤ now)
    ∧ (check_completed_developments (check_completed_developments db now).2 later).1 =
        .ok ((db.developments.filter
          (fun d => !(devMatured now d) && devMatured later d)).map setCompleted)
    ∧ (check_completed_developments (check_completed_developments db now).2 now).1 = .ok []
    ∧ (check_completed_developments (check_completed_developments db now).2 now).2 =
        (check_completed_developments db now).2 := by
  have hsecond : ∀ t : Int,
      ((check_completed_developments db now).2.developments.filter (devMatured t)) =
        (db.developments.filter (fun d => !(devMatured now d) && devMatured t d)).map
          (fun d => if devMatured now d then setCompleted d else d) := by
    intro t
    rw [check_developments_eq]
    exact sweep_second_filter db.developments now t
  have hsame : ∀ t : Int,
      ((check_completed_developments db now).2.developments.filter (devMatured t)) =
        (db.developments.filter (fun d => !(devMatured now d) && devMatured t d)) := by
    intro t
    rw [hsecond t]
    have : ∀ d ∈ db.developments.filter (fun d => !(devMatured now d) && devMatured t d),
        (if devMatured now d then setCompleted d else d) = d := by
      intro d hd
      rw [List.mem_filter] at hd
      have : devMatured now d = false := by
        rcases hd with ⟨-, hp⟩
        cases h : devMatured now d
        · rfl
        · rw [h] at hp; simp at hp
      exact sweepStep_eq_self this
    rw [List.map_congr_left this]
    simp
  have hempty : ((check_completed_developments db now).2.developments.filter
      (devMatured now)) = [] := by
    rw [hsame now]
    have : ∀ d ∈ db.developments,
        (!(devMatured now d) && devMatured now d) = false := by
      intro d _
      cases h : devMatured now d <;> simp [h]
    rw [List.filter_congr this]
    simp
  refine ⟨?_, ?_, ?_, ?_⟩
  · intro x hx
    rw [List.mem_filter] at hx
    exact (devMatured_iff now x).mp hx.2
  · rw [check_ret_eq, hsame later]
  · rw [check_ret_eq, hempty]
    rfl
  · have hdevs : (check_completed_developments (check_completed_developments db now).2 now).2.developments =
        (check_completed_developments db now).2.developments := by
      rw [check_developments_eq]
      have hid : ∀ d ∈ (check_completed_developments db now).2.developments,
          (if devMatured now d then setCompleted d else d) = d := by
        intro d hd
        rw [check_developments_eq, List.mem_map] at hd
        obtain ⟨d0, -, rfl⟩ := hd
        by_cases h : devMatured now d0
        · rw [if_pos h]
          exact sweepStep_eq_self (devMatured_setCompleted now d0)
        · have hf : devMatured now d0 = false := by simpa using h
          rw [sweepStep_eq_self hf]
          exact sweepStep_eq_self hf
      rw [List.map_congr_left hid]
      simp
    have hcs : (check_completed_developments (check_completed_developments db now).2 now).2.countries =
        (check_completed_developments db now).2.countries := by
      rw [check_countries_eq, hempty]
      rfl
    have hus : (check_completed_developments (check_completed_developments db now).2 now).2.units =
        (check_completed_developments db now).2.units := check_units_eq _ now
    have hbs : (check_completed_developments (check_completed_developments db now).2 now).2.battles =
        (check_completed_developments db now).2.battles := rfl
    have hts : (check_completed_developments (check_completed_developments db now).2 now).2.transactions =
        (check_completed_developments db now).2.transactions := rfl
    cases hst : (check_completed_developments (check_completed_developments db now).2 now).2
    cases hst' : (check_completed_developments db now).2
    rw [hst] at hdevs hcs hus hbs hts
    rw [hst'] at hdevs hcs hus hbs hts
    simp_all

/-- The "Road Network" development (cost 200, 1 day, 5% infrastructure bonus)
started at epoch 0 by nation 1. -/
def sampleDev : Development :=
  { id := 1, country_id := 1, category := .infrastructure, name := "Road Network",
    resource_cost := 200, start_time := 0, end_time := 86400,
    status := .in_progress, infrastructure_bonus := 5/100, research_bonus := 0,
    trade_bonus := 2/100 }

/-- Nation 1 with the road-network project in progress. -/
def sampleDevDB : DB :=
  { countries := [sampleA], units := [], developments := [sampleDev],
    battles := [], transactions := [] }

/-- Witness for C1: the concrete one-project state swept at T+1day+1s, then
re-swept; the second sweep selects nothing and changes nothing. -/
theorem sweep_idempotent_witness :
    sampleDev ∈ sampleDevDB.developments.filter (devMatured 86401) ∧
    (sampleDev.status = .in_progress ∧ sampleDev.end_time ≤ 86401) ∧
    (check_completed_developments
      (check_completed_developments sampleDevDB 86401).2 86402).1 =
      .ok ((sampleDevDB.developments.filter
        (fun d => !(devMatured 86401 d) && devMatured 86402 d)).map setCompleted) ∧
    (check_completed_developments
      (check_completed_developments sampleDevDB 86401).2 86401).1 = .ok [] ∧
    (check_completed_developments
      (check_completed_developments sampleDevDB 86401).2 86401).2 =
      (check_completed_developments sampleDevDB 86401).2 :=
  have hmem : sampleDev ∈ sampleDevDB.developments.filter (devMatured 86401) := by
    rw [List.mem_filter]
    exact ⟨by simp [sampleDevDB], by decide⟩
  ⟨hmem,
   (sweep_idempotent sampleDevDB 86401 86402).1 sampleDev hmem,
   (sweep_idempotent sampleDevDB 86401 86402).2.1,
   (sweep_idempotent sampleDevDB 86401 86402).2.2.1,
   (sweep_idempotent sampleDevDB 86401 86402).2.2.2⟩

/-- C9: the sweep selects exactly the IN_PROGRESS records with
end_time <= now, sets each to COMPLETED, and updates the owning nation by
gdp = floor(gdp * (1 + infrastructure_bonus)),
military_power = floor(military_power * (1 + research_bonus)),
resources = resources + floor(resources * trade_bonus).  In the concrete
scenario (1-day road network started at 0, swept at 86401) the record becomes
COMPLETED and the nation's gdp grows by exactly its 5% infrastructure bonus:
10^9 to 1.05*10^9. -/
theorem sweep_applies_bonuses :
    (∀ (db : DB) (now : Int),
      (check_completed_developments db now).1 =
        .ok ((db.developments.filter (devMatured now)).map setCompleted)
      ∧ (∀ d : Development,
          devMatured now d = true ↔ (d.status = .in_progress ∧ d.end_time ≤ now)))
    ∧ (∀ (c : Country) (d : Development),
        0 ≤ c.gdp → 0 ≤ c.military_power → 0 ≤ c.resources →
        0 ≤ d.infrastructure_bonus → 0 ≤ d.research_bonus → 0 ≤ d.trade_bonus →
        (applyBonuses c d).gdp = Int.floor ((c.gdp : ℚ) * (1 + d.infrastructure_bonus))
        ∧ (applyBonuses c d).military_power =
            Int.floor ((c.military_power : ℚ) * (1 + d.research_bonus))
        ∧ (applyBonuses c d).resources =
            c.resources + Int.floor ((c.resources : ℚ) * d.trade_bonus))
    ∧ (∀ (db : DB) (now : Int) (d : Development),
        db.developments.filter (devMatured now) = [d] →
        (check_completed_developments db now).1 = .ok [setCompleted d]
        ∧ (check_completed_developments db now).2.countries =
            updateCountryList db.countries d.country_id (fun c => applyBonuses c d))
    ∧ ((check_completed_developments sampleDevDB 86401).1 = .ok [setCompleted sampleDev]
      ∧ (check_completed_developments sampleDevDB 86401).2.developments =
          [setCompleted sampleDev]
      ∧ (check_completed_developments sampleDevDB 86401).2.countries =
          [applyBonuses sampleA sampleDev]
      ∧ (check_completed_developments sampleDevDB 86401).2.countries.map Country.gdp =
          [1050000000]) := by
  have hfilter : sampleDevDB.developments.filter (devMatured 86401) = [sampleDev] := by
    have hm : devMatured 86401 sampleDev = true := by decide
    simp [sampleDevDB, List.filter_cons, hm]
  refine ⟨?_, ?_, ?_, ?_⟩
  · intro db now
    exact ⟨check_ret_eq db now, fun d => devMatured_iff now d⟩
  · intro c d hg hm hr hi hre ht
    refine ⟨?_, ?_, ?_⟩
    · show pyInt ((c.gdp : ℚ) * (1 + d.infrastructure_bonus)) = _
      exact pyInt_eq_floor (mul_nonneg (by exact_mod_cast hg) (by linarith))
    · show pyInt ((c.military_power : ℚ) * (1 + d.research_bonus)) = _
      exact pyInt_eq_floor (mul_nonneg (by exact_mod_cast hm) (by linarith))
    · show c.resources + pyInt ((c.resources : ℚ) * d.trade_bonus) = _
      rw [pyInt_eq_floor (mul_nonneg (by exact_mod_cast hr) ht)]
  · intro db now d hone
    constructor
    · rw [check_ret_eq, hone]
      rfl
    · rw [check_countries_eq, hone]
      rfl
  · have hret : (check_completed_developments sampleDevDB 86401).1 =
        .ok [setCompleted sampleDev] := by
      rw [check_ret_eq, hfilter]
      rfl
    have hdevs : (check_completed_developments sampleDevDB 86401).2.developments =
        [setCompleted sampleDev] := by
      rw [check_developments_eq]
      have hm : devMatured 86401 sampleDev = true := by decide
      simp [sampleDevDB, hm]
    have hcs : (check_completed_developments sampleDevDB 86401).2.countries =
        [applyBonuses sampleA sampleDev] := by
      rw [check_countries_eq, hfilter]
      show updateCountryList [sampleA] sampleDev.country_id
        (fun c => applyBonuses c sampleDev) = [applyBonuses sampleA sampleDev]
      unfold updateCountryList
      have hbeq : (sampleA.id == sampleDev.country_id) = true := by decide
      rw [List.map_singleton, hbeq]
      simp
    refine ⟨hret, hdevs, hcs, ?_⟩
    rw [hcs]
    have : (applyBonuses sampleA sampleDev).gdp = 1050000000 := by
      show pyInt ((sampleA.gdp : ℚ) * (1 + sampleDev.infrastructure_bonus)) = _
      have h1 : ((sampleA.gdp : Int) : ℚ) * (1 + sampleDev.infrastructure_bonus) =
          1050000000 := by
        show ((1000000000 : Int) : ℚ) * (1 + 5/100) = 1050000000
        norm_num
      rw [h1, pyInt_eq_floor (by norm_num)]
      norm_num
    simp [this]

/-- Witness for C9: the single-selected-record part instantiated on the
concrete one-project state, discharging the selection hypothesis. -/
theorem sweep_applies_bonuses_witness :
    sampleDevDB.developments.filter (devMatured 86401) = [sampleDev] ∧
    ((check_completed_developments sampleDevDB 86401).1 = .ok [setCompleted sampleDev]
     ∧ (check_completed_developments sampleDevDB 86401).2.countries =
         updateCountryList sampleDevDB.countries sampleDev.country_id
           (fun c => applyBonuses c sampleDev)) :=
  have hf : sampleDevDB.developments.filter (devMatured 86401) = [sampleDev] := by
    have hm : devMatured 86401 sampleDev = true := by decide
    simp [sampleDevDB, List.filter_cons, hm]
  ⟨hf, sweep_applies_bonuses.2.2.1 sampleDevDB 86401 sampleDev hf⟩

/-- One nation owning ten tanks: a configuration on which the two strength
computations disagree. -/
def sampleTankDB : DB :=
  { countries := [sampleA],
    units := [{ country_id := 1, unit_type := .tank, quantity := 10,
                technology_level := 1 }],
    developments := [], battles := [], transactions := [] }

/-- Counterexample for C10: for a nation with ten tanks (strength multiplier 5,
technology level 1) the status query reports total_strength 10 while
battle resolution computes aggregate strength 50; the two computations do not
agree. -/
theorem strength_mismatch_counterexample :
    get_country_status sampleTankDB 1 =
      .ok { id := 1, name := "Alpha", population := 1000000, gdp := 1000000000,
            military_power := 10, resources := 1000,
            unitInfo := [(.tank, 10, 1)], total_strength := 10 }
    ∧ calculate_military_strength sampleTankDB 1 = 50
    ∧ (10 : Int) ≠ 50 := by
  refine ⟨rfl, rfl, by decide⟩

/-- C10 (amended): `get_country_status` reports
total_strength = Σ quantity * technology_level, omitting the per-category
strength multiplier, while `calculate_military_strength` returns
Σ quantity * multiplier * technology_level; the two values agree when every
unit of the country is infantry (multiplier 1), but not in general. -/
theorem strength_formulas_amended (db : DB) (cid : Int) (c : Country)
    (hc : getCountry db cid = some c) :
    (∃ st : CountryStatus, get_country_status db cid = Except.ok st ∧
      st.total_strength =
        ((get_military_units db cid).map (fun u => u.quantity * u.technology_level)).sum)
    ∧ calculate_military_strength db cid =
        ((get_military_units db cid).map
          (fun u => u.quantity * unit_strength u.unit_type * u.technology_level)).sum
    ∧ ((∀ u ∈ get_military_units db cid, u.unit_type = .infantry) →
        ((get_military_units db cid).map (fun u => u.quantity * u.technology_level)).sum =
          calculate_military_strength db cid) := by
  refine ⟨?_, rfl, ?_⟩
  · refine ⟨CountryStatus.mk c.id c.name c.population c.gdp c.military_power c.resources
        ((get_military_units db cid).map (fun u => (u.unit_type, u.quantity, u.technology_level)))
        (((get_military_units db cid).map (fun u => u.quantity * u.technology_level)).sum),
      ?_, rfl⟩
    unfold get_country_status
    rw [hc]
  · intro hinf
    unfold calculate_military_strength
    have : ∀ u ∈ get_military_units db cid,
        u.quantity * u.technology_level =
          u.quantity * unit_strength u.unit_type * u.technology_level := by
      intro u hu
      rw [hinf u hu]
      show u.quantity * u.technology_level = u.quantity * 1 * u.technology_level
      ring
    rw [List.map_congr_left this]

/-- Witness for C10's amended statement: instantiated on the infantry-only
sample nation, where status strength and battle strength are both 100. -/
theorem strength_formulas_amended_witness :
    getCountry sampleDB 1 = some sampleA ∧
    (∀ u ∈ get_military_units sampleDB 1, u.unit_type = .infantry) ∧
    ((get_military_units sampleDB 1).map (fun u => u.quantity * u.technology_level)).sum =
      calculate_military_strength sampleDB 1 :=
  ⟨rfl, by decide,
   (strength_formulas_amended sampleDB 1 sampleA rfl).2.2 (by decide)⟩

/-- The empty store. -/
def emptyDB : DB :=
  { countries := [], units := [], developments := [], battles := [],
    transactions := [] }

/-- The store right after `create_country` for user 11: nation 1 with
INITIAL_RESOURCES and the initial army. -/
def freshDB : DB :=
  { countries := [sampleA], units := initialMilitaryUnits 1,
    developments := [], battles := [], transactions := [] }

/-- C5 (failing input): creating a fresh nation succeeds with
INITIAL_RESOURCES = 1000, and 100 infantry at cost 10 each is exactly
affordable, but `build_army` then raises NameError at the unresolved
`TransactionLog` reference before committing: the build returns an error and
the committed state is unchanged, so no units are added and no resources are
deducted. -/
theorem build_round_trip_name_error :
    create_country emptyDB 11 "Alpha" "democracy" "liberal" = (.ok sampleA, freshDB)
    ∧ getCountry freshDB 1 = some sampleA
    ∧ sampleA.resources = INITIAL_RESOURCES
    ∧ unit_costs .infantry * 100 = 1000
    ∧ ¬ sampleA.resources < unit_costs .infantry * 100
    ∧ build_army freshDB 1 "infantry" 100 =
        (.error (.nameError "TransactionLog"), freshDB) := by
  exact ⟨rfl, rfl, rfl, rfl, by decide, rfl⟩

/-- Witness for C3: 30 casualties allocated over the sample army (100
infantry), discharging the non-negativity hypotheses. -/
theorem casualty_allocation_bounded_witness :
    (∀ u ∈ sampleDB.units, 0 ≤ u.quantity) ∧ (0:Int) ≤ 30 ∧
    (((sampleDB.units.map casualtyContribution).sum = 0 →
        applyCasualtiesUnits sampleDB.units 30 = sampleDB.units)
     ∧ ((sampleDB.units.map casualtyContribution).sum ≠ 0 →
        applyCasualtiesUnits sampleDB.units 30 = sampleDB.units.map (fun u =>
          { u with quantity := u.quantity - casualtyLoss ((sampleDB.units.map casualtyContribution).sum) 30 u }))
     ∧ (∀ u' ∈ applyCasualtiesUnits sampleDB.units 30, 0 ≤ u'.quantity)
     ∧ (sampleDB.units.map MilitaryUnit.quantity).sum
         - ((applyCasualtiesUnits sampleDB.units 30).map MilitaryUnit.quantity).sum ≤ 30) :=
  ⟨by decide, by decide,
   casualty_allocation_bounded sampleDB.units 30 (by decide) (by decide)⟩

/-- Witness for C6: the one-day road-network project queried halfway and
after maturity, discharging the time-ordering hypotheses. -/
theorem development_progress_spec_witness :
    sampleDev.start_time < sampleDev.end_time ∧
    sampleDev.start_time ≤ 43200 ∧ (43200:Int) ≤ 86401 ∧
    (sampleDev.status = .in_progress →
      (progressOf sampleDev 43200).1 =
        min 100 (max 0 (Int.floor (((43200 - sampleDev.start_time : Int) : ℚ) /
          ((sampleDev.end_time - sampleDev.start_time : Int) : ℚ) * 100)))
      ∧ (progressOf sampleDev 43200).2 = max 0 (sampleDev.end_time - 43200)) ∧
    (0 ≤ (progressOf sampleDev 43200).1 ∧ (progressOf sampleDev 43200).1 ≤ 100) ∧
    (sampleDev.status = .in_progress →
      (progressOf sampleDev 43200).1 ≤ (progressOf sampleDev 86401).1) :=
  have h := development_progress_spec sampleDev 43200 86401
    (by decide) (by decide) (by decide)
  ⟨by decide, by decide, by decide, h.2.2.1, h.2.2.2.1, h.2.2.2.2⟩

/-- Pinned random draws used by concrete attack witnesses. -/
def sampleRand : BattleRandom :=
  { random_factor := 1, base_casualty_rate := 2/10,
    territory_roll := 1/10, resources_roll := 15/100 }

/-- Witness for C8: the attack-level frame condition instantiated on the
sample two-nation state, discharging the validation hypotheses. -/
theorem spoils_victory_only_witness :
    getCountry sampleDB 1 = some sampleA ∧
    getCountry sampleDB 2 = some sampleB ∧
    (1:Int) ≠ 2 ∧
    ¬ calculate_military_strength sampleDB 1 ≤ 0 ∧
    (attack sampleDB 1 2 sampleRand).2.countries =
      (if (calculateBattleResult (calculate_military_strength sampleDB 1)
            (calculate_military_strength sampleDB 2) sampleB.resources sampleRand).1 =
          BattleResult.victory then
        updateCountryList
          (updateCountryList sampleDB.countries 1
            (fun c => { c with resources := c.resources + (calculateBattleResult (calculate_military_strength sampleDB 1) (calculate_military_strength sampleDB 2) sampleB.resources sampleRand).2.2.2.2 }))
          2
          (fun c => { c with resources := c.resources - (calculateBattleResult (calculate_military_strength sampleDB 1) (calculate_military_strength sampleDB 2) sampleB.resources sampleRand).2.2.2.2 })
      else sampleDB.countries) :=
  ⟨rfl, rfl, by decide, by decide,
   spoils_victory_only.2.2 sampleDB 1 2 sampleRand sampleA sampleB rfl rfl
     (by decide) (by decide)⟩

/-- Every country row carries a non-negative resource balance. -/
def nonnegResources (db : DB) : Prop :=
  ∀ c ∈ db.countries, 0 ≤ c.resources

theorem update_resources_state (db : DB) (cid amount : Int) :
    (update_resources db cid amount).2 = db := by
  unfold update_resources
  cases getCountry db cid with
  | none => rfl
  | some c =>
    dsimp only
    split_ifs <;> rfl

theorem build_army_state (db : DB) (cid : Int) (s : String) (q : Int) :
    (build_army db cid s q).2 = db := by
  unfold build_army
  cases unitTypeOfString s with
  | none => rfl
  | some ut =>
    dsimp only
    split_ifs with h1
    · rfl
    · cases getCountry db cid with
      | none => rfl
      | some c =>
        dsimp only
        split_ifs <;> rfl

theorem start_development_state (db : DB) (cid : Int) (cs oname : String) :
    (start_development db cid cs oname).2 = db := by
  unfold start_development
  cases categoryOfString cs with
  | none => rfl
  | some cat =>
    dsimp only
    cases (development_options cat).find? (fun o => o.name == oname) with
    | none => rfl
    | some o =>
      dsimp only
      cases getCountry db cid with
      | none => rfl
      | some c =>
        dsimp only
        split_ifs <;> rfl

theorem applyBonuses_resources_nonneg {c : Country} {d : Development}
    (hc : 0 ≤ c.resources) (ht : 0 ≤ d.trade_bonus) :
    0 ≤ (applyBonuses c d).resources := by
  show 0 ≤ c.resources + pyInt ((c.resources : ℚ) * d.trade_bonus)
  have := pyInt_nonneg (mul_nonneg (by exact_mod_cast hc : (0:ℚ) ≤ (c.resources : ℚ)) ht)
  omega

theorem updateCountryList_nonneg {cs : List Country} {cid : Int}
    {f : Country → Country}
    (h : ∀ c ∈ cs, 0 ≤ c.resources)
    (hf : ∀ c ∈ cs, 0 ≤ c.resources → 0 ≤ (f c).resources) :
    ∀ c ∈ updateCountryList cs cid f, 0 ≤ c.resources := by
  intro c hc
  unfold updateCountryList at hc
  rw [List.mem_map] at hc
  obtain ⟨c0, hc0, rfl⟩ := hc
  split_ifs with hid
  · exact hf c0 hc0 (h c0 hc0)
  · exact h c0 hc0

theorem sweep_fold_nonneg (devs : List Development) (cs : List Country)
    (hd : ∀ d ∈ devs, 0 ≤ d.trade_bonus) (hc : ∀ c ∈ cs, 0 ≤ c.resources) :
    ∀ c ∈ devs.foldl
      (fun cs d => updateCountryList cs d.country_id (fun c => applyBonuses c d)) cs,
      0 ≤ c.resources := by
  induction devs generalizing cs with
  | nil => simpa
  | cons d t ih =>
    simp only [List.foldl_cons]
    exact ih _ (fun x hx => hd x (List.mem_cons_of_mem d hx))
      (updateCountryList_nonneg hc
        (fun c _ hcr => applyBonuses_resources_nonneg hcr (hd d (List.mem_cons_self d t))))

theorem attack_nonneg (db : DB) (aid did : Int) (r : BattleRandom)
    (hnn : nonnegResources db) (hnd : (db.countries.map Country.id).Nodup)
    (hr0 : 0 ≤ r.resources_roll) (hr1 : r.resources_roll ≤ 1) :
    nonnegResources (attack db aid did r).2 := by
  cases ha : getCountry db aid with
  | none =>
    unfold attack
    rw [ha]
    exact hnn
  | some a =>
    cases hd : getCountry db did with
    | none =>
      unfold attack
      rw [ha, hd]
      exact hnn
    | some d =>
      by_cases hne : aid = did
      · unfold attack
        rw [ha, hd]
        simp only [beq_iff_eq, if_pos hne]
        exact hnn
      · by_cases hs : calculate_military_strength db aid ≤ 0
        · unfold attack
          rw [ha, hd]
          simp only [beq_iff_eq, if_neg hne]
          rw [if_pos hs]
          exact hnn
        · rw [attack_valid_eq db aid did r a d ha hd hne hs]
          have hdid : d.id = did := by
            unfold getCountry at hd
            simpa using List.find?_some hd
          have hdmem : d ∈ db.countries := by
            unfold getCountry at hd
            exact List.mem_of_find?_eq_some hd
          have hdres : 0 ≤ d.resources := hnn d hdmem
          have hdresQ : (0:ℚ) ≤ (d.resources : ℚ) := by exact_mod_cast hdres
          intro c hc
          dsimp only at hc
          by_cases hv : (calculateBattleResult (calculate_military_strength db aid)
              (calculate_military_strength db did) d.resources r).1 = BattleResult.victory
          · rw [if_pos hv] at hc
            dsimp only at hc
            rw [apply_casualties_countries, apply_casualties_countries] at hc
            have hrc_eq : (calculateBattleResult (calculate_military_strength db aid)
                (calculate_military_strength db did) d.resources r).2.2.2.2 =
                pyInt (r.resources_roll * (d.resources : ℚ)) := by
              rw [cbr_rc, if_pos hv]
            have hrc0 : 0 ≤ (calculateBattleResult (calculate_military_strength db aid)
                (calculate_military_strength db did) d.resources r).2.2.2.2 := by
              rw [hrc_eq]
              exact pyInt_nonneg (mul_nonneg hr0 hdresQ)
            have hrcle : (calculateBattleResult (calculate_military_strength db aid)
                (calculate_military_strength db did) d.resources r).2.2.2.2 ≤ d.resources := by
              rw [hrc_eq]
              have h1 : (pyInt (r.resources_roll * (d.resources : ℚ)) : ℚ) ≤
                  r.resources_roll * (d.resources : ℚ) :=
                pyInt_le (mul_nonneg hr0 hdresQ)
              have h2 : r.resources_roll * (d.resources : ℚ) ≤ (d.resources : ℚ) := by
                nlinarith
              exact_mod_cast le_trans h1 h2
            unfold updateCountryList at hc
            rw [List.mem_map] at hc
            obtain ⟨c1, hc1, rfl⟩ := hc
            rw [List.mem_map] at hc1
            obtain ⟨c0, hc0, rfl⟩ := hc1
            have hc0r : 0 ≤ c0.resources := hnn c0 hc0
            dsimp only
            by_cases h0a : c0.id = aid
            · rw [if_pos (by simp [h0a] : (c0.id == aid) = true)]
              rw [if_neg (by simp [h0a, hne] : ¬ (({ c0 with resources := c0.resources + (calculateBattleResult (calculate_military_strength db aid) (calculate_military_strength db did) d.resources r).2.2.2.2 } : Country).id == did) = true)]
              show 0 ≤ c0.resources + _
              omega
            · rw [if_neg (by simp [h0a] : ¬ (c0.id == aid) = true)]
              by_cases h0d : c0.id = did
              · have hc0d : c0 = d :=
                  List.inj_on_of_nodup_map hnd hc0 hdmem (by rw [h0d, hdid])
                rw [if_pos (by simp [h0d] : (c0.id == did) = true)]
                show 0 ≤ c0.resources - _
                rw [hc0d]
                omega
              · rw [if_neg (by simp [h0d] : ¬ (c0.id == did) = true)]
                exact hc0r
          · rw [if_neg hv] at hc
            rw [apply_casualties_countries, apply_casualties_countries] at hc
            exact hnn c hc

/-- C4: resource non-negativity is preserved by every resource-mutating
operation.  The state committed by `update_resources`, `build_army` and
`start_development` is always the input state (their success paths raise
NameError before the commit, their failure paths raise domain errors before
it); the sweep only adds floor(resources * trade_bonus) with catalog bonuses
that are non-negative; `attack` moves at most the defender's current balance.
An adjustment that would drive the balance negative is rejected with a
ResourceError, the state unchanged. -/
theorem resource_balance_invariant :
    (∀ (db : DB) (cid amount : Int),
      nonnegResources db → nonnegResources (update_resources db cid amount).2)
    ∧ (∀ (db : DB) (cid amount : Int) (c : Country),
        getCountry db cid = some c → amount < 0 → c.resources + amount < 0 →
        update_resources db cid amount =
          (.error (.resourceError "Not enough resources"), db))
    ∧ (∀ (db : DB) (cid : Int) (s : String) (q : Int),
        nonnegResources db → nonnegResources (build_army db cid s q).2)
    ∧ (∀ (db : DB) (cid : Int) (cs oname : String),
        nonnegResources db → nonnegResources (start_development db cid cs oname).2)
    ∧ (∀ (db : DB) (now : Int), nonnegResources db →
        (∀ d ∈ db.developments, 0 ≤ d.trade_bonus) →
        nonnegResources (check_completed_developments db now).2)
    ∧ (∀ (db : DB) (aid did : Int) (r : BattleRandom),
        nonnegResources db → (db.countries.map Country.id).Nodup →
        0 ≤ r.resources_roll → r.resources_roll ≤ 1 →
        nonnegResources (attack db aid did r).2) := by
  refine ⟨?_, ?_, ?_, ?_, ?_, ?_⟩
  · intro db cid amount h
    rw [update_resources_state]
    exact h
  · intro db cid amount c hc h1 h2
    unfold update_resources
    rw [hc]
    dsimp only
    rw [if_pos ⟨h1, h2⟩]
  · intro db cid s q h
    rw [build_army_state]
    exact h
  · intro db cid cs oname h
    rw [start_development_state]
    exact h
  · intro db now h hdev c hcmem
    rw [check_countries_eq] at hcmem
    exact sweep_fold_nonneg _ _
      (fun d hdm => hdev d (List.mem_filter.mp hdm).1) h c hcmem
  · intro db aid did r h hnd hr0 hr1
    exact attack_nonneg db aid did r h hnd hr0 hr1

/-- Witness for C4: the attack clause and the rejection clause instantiated on
the concrete two-nation state, discharging all hypotheses. -/
theorem resource_balance_invariant_witness :
    nonnegResources sampleDB ∧
    (sampleDB.countries.map Country.id).Nodup ∧
    (0:ℚ) ≤ sampleRand.resources_roll ∧ sampleRand.resources_roll ≤ 1 ∧
    nonnegResources (attack sampleDB 1 2 sampleRand).2 ∧
    getCountry sampleDB 1 = some sampleA ∧
    (-1001 : Int) < 0 ∧ sampleA.resources + (-1001) < 0 ∧
    update_resources sampleDB 1 (-1001) =
      (.error (.resourceError "Not enough resources"), sampleDB) :=
  have hnn : nonnegResources sampleDB := by
    show ∀ c ∈ sampleDB.countries, 0 ≤ c.resources
    decide
  have hnd : (sampleDB.countries.map Country.id).Nodup := by decide
  have hr0 : (0:ℚ) ≤ sampleRand.resources_roll := by norm_num [sampleRand]
  have hr1 : sampleRand.resources_roll ≤ 1 := by norm_num [sampleRand]
  ⟨hnn, hnd, hr0, hr1,
   resource_balance_invariant.2.2.2.2.2 sampleDB 1 2 sampleRand hnn hnd hr0 hr1,
   rfl, by decide, by decide,
   resource_balance_invariant.2.1 sampleDB 1 (-1001) sampleA rfl
     (by decide) (by decide)⟩
